import Mathlib

/-!
Verification development for the Kanglish summarizer web application
(`app.py`, `translate.py`, `transcribe.py`, `summary.py`, `youtube.py`).

The Python sources are shallowly embedded: pure string manipulation is
translated to executable Lean functions on `String` / `List Char`, the
three external services (speech-to-text, summarizer, chat-completion
translator) are modelled as oracle parameters returning `Except String _`
(`.error` models a raised exception carrying `str(e)`), and the shared
`processing_status` dictionary is a record with one field per key.
Python string operations work on code points, as do Lean `String.data`
lists, so `text[:n]`, `len`, `strip`, `lower` are modelled on `List Char`.
`\w` and `\s` of Python's `re` are modelled by their ASCII cores
(`Char.isAlphanum`/underscore, and the six ASCII whitespace characters);
the handful of claims touching them only concern ASCII data.
-/

/-- ASCII core of Python's whitespace class (`str.strip` / regex `\s`):
space, tab, newline, carriage return, vertical tab, form feed. -/
def pyWS (c : Char) : Bool :=
  c = ' ' || c = '\t' || c = '\n' || c = '\r' || c = '\x0b' || c = '\x0c'

/-- Python `str.strip()`: drop leading and trailing whitespace. -/
def pyStrip (s : String) : String :=
  ⟨((s.data.dropWhile pyWS).reverse.dropWhile pyWS).reverse⟩

/-- Python slice `s[:n]` (counting code points). -/
def pyTake (n : Nat) (s : String) : String := ⟨s.data.take n⟩

/-- Python slice `s[n:]` (counting code points). -/
def pyDrop (n : Nat) (s : String) : String := ⟨s.data.drop n⟩

/-- Python `str.lower()` (ASCII case folding, enough for the tags checked). -/
def pyLower (s : String) : String := ⟨s.data.map Char.toLower⟩

/-- Python `str.startswith(p)`. -/
def pyStartsWith (p s : String) : Bool := s.data.take p.data.length == p.data

/-- `os.path.basename` for POSIX paths: everything after the last `/`. -/
def basename (p : String) : String :=
  ⟨(p.data.reverse.takeWhile (fun c => c ≠ '/')).reverse⟩

/-- The dictionary returned by `create_translations` in `translate.py`:
keys `kannada` and `kanglish`. -/
structure Translations where
  kannada : String
  kanglish : String
deriving DecidableEq, Repr

/- ===== translate.py ===== -/

/-- Text of the Kannada prompt before the interpolated `text[:1000]`
(`get_kannada_translation`, translate.py lines 59-63). -/
def kannadaPromptPre : String :=
  "Translate the following English text to Kannada. Provide only the translation without any explanations:\n\n        English: "

/-- Text of the Kannada prompt after the interpolated `text[:1000]`. -/
def kannadaPromptPost : String := "\n        \n        Kannada:"

/-- The full prompt sent for the Kannada translation: the f-string
interpolates `text[:1000]`. -/
def kannadaPrompt (text : String) : String :=
  kannadaPromptPre ++ pyTake 1000 text ++ kannadaPromptPost

/-- Text of the Kanglish prompt before the interpolated `text[:1000]`
(`get_kanglish_translation`, translate.py lines 89-94). -/
def kanglishPromptPre : String :=
  "Convert the following English text to Kanglish (mixed Kannada-English as commonly spoken in Karnataka). \n        Use English words written in Kannada script where appropriate and mix both languages naturally:\n\n        English: "

/-- Text of the Kanglish prompt after the interpolated `text[:1000]`. -/
def kanglishPromptPost : String := "\n        \n        Kanglish:"

/-- The full prompt sent for the Kanglish translation. -/
def kanglishPrompt (text : String) : String :=
  kanglishPromptPre ++ pyTake 1000 text ++ kanglishPromptPost

/-- The response clean-up shared by both translation wrappers: strip the
response, and if it starts (case-insensitively) with the given tag
(`kannada:` / `kanglish:`) drop that many characters and strip again. -/
def cleanAiTranslation (tag : String) (n : Nat) (r : String) : String :=
  let t := pyStrip r
  if pyStartsWith tag (pyLower t) then pyStrip (pyDrop n t) else t

/-- `get_kannada_translation` with the chat-completion endpoint abstracted
as an oracle `d` from prompt to `Except` (errors re-raise). -/
def get_kannada_translation (d : String → Except String String)
    (text : String) : Except String String :=
  match d (kannadaPrompt text) with
  | .error e => .error e
  | .ok r => .ok (cleanAiTranslation "kannada:" 8 r)

/-- `get_kanglish_translation`, same shape as the Kannada wrapper. -/
def get_kanglish_translation (d : String → Except String String)
    (text : String) : Except String String :=
  match d (kanglishPrompt text) with
  | .error e => .error e
  | .ok r => .ok (cleanAiTranslation "kanglish:" 9 r)

/-- Fixed text preceding the interpolated `text[:100]` in the Kannada
fallback string (`get_fallback_translations`, translate.py line 161). -/
def kannadaFallbackPre : String :=
  "ಸಾರಾಂಶ (ಪರೀಕ್ಷಾ ಆವೃತ್ತಿ): ಈ ವಿಷಯದ ಮುಖ್ಯ ಅಂಶಗಳನ್ನು ಶೀಘ್ರದಲ್ಲೇ ಸ್ವಯಂ ಅನುವಾದಿಸಲಾಗುತ್ತದೆ. ಮೂಲ ಪಠ್ಯ: "

/-- Fixed text preceding the interpolated `text[:100]` in the Kanglish
fallback string (translate.py line 163). -/
def kanglishFallbackPre : String :=
  "Summary (test version): Main points inda auto-translation soon ready aagutaade. Original text: "

/-- `get_fallback_translations`: the two f-strings interpolate `text[:100]`
followed by an ellipsis.  (Its inner `try` cannot fail: both branches are
pure string formatting, so the `except` arm is dead code.) -/
def get_fallback_translations (text : String) : Translations :=
  ⟨kannadaFallbackPre ++ pyTake 100 text ++ "...",
   kanglishFallbackPre ++ pyTake 100 text ++ "..."⟩

/-- The pair returned for empty or whitespace-only input
(translate.py lines 22-25). -/
def noContentPair : Translations :=
  ⟨"ಅನುವಾದಿಸಲು ಯಾವುದೇ ವಿಷಯ ಲಭ್ಯವಿಲ್ಲ.", "No content available for translation."⟩

/-- `create_translations` (translate.py lines 10-46).  The second
component of the result is the list of prompts actually sent to the
chat-completion endpoint during the call, in order, used to account for
how often the external service is invoked.  The inner `try` turns any
failure of either prompted call into the textual fallback; the outer
`except` arm is unreachable because everything after the inner `try` is
total. -/
def create_translations (text : String) (d : String → Except String String) :
    Translations × List String :=
  if text = "" ∨ pyStrip text = "" then (noContentPair, [])
  else
    match get_kannada_translation d text with
    | .error _ => (get_fallback_translations text, [kannadaPrompt text])
    | .ok k =>
      match get_kanglish_translation d text with
      | .error _ =>
        (get_fallback_translations text, [kannadaPrompt text, kanglishPrompt text])
      | .ok g => (⟨k, g⟩, [kannadaPrompt text, kanglishPrompt text])

/- ===== youtube.py ===== -/

/-- Character class of the regex `[<>:"/\\|?*]` removed first by
`sanitize_filename` (youtube.py line 12). -/
def invalidFileChar (c : Char) : Bool :=
  c = '<' || c = '>' || c = ':' || c = '"' || c = '/' || c = '\\' ||
  c = '|' || c = '?' || c = '*'

/-- ASCII core of the regex word class `\w`: letters, digits, underscore. -/
def wordChar (c : Char) : Bool := c.isAlphanum || c = '_'

/-- Character class `[\w\s\-_.]` kept by the second substitution of
`sanitize_filename` (youtube.py line 14). -/
def keepFileChar (c : Char) : Bool :=
  wordChar c || pyWS c || c = '-' || c = '.'

/-- A character belonging to a whitespace-or-underscore run, the class
`[\s_]` collapsed by the third substitution (youtube.py line 16). -/
def runChar (c : Char) : Bool := pyWS c || c = '_'

/-- `re.sub(r'[\s_]+', '_', ...)`: replace every maximal run of
whitespace/underscore characters by a single underscore.  The Boolean
argument records whether the previous character belonged to a run. -/
def collapseRuns : Bool → List Char → List Char
  | _, [] => []
  | inRun, c :: cs =>
    if runChar c then
      if inRun then collapseRuns true cs else '_' :: collapseRuns true cs
    else c :: collapseRuns false cs

/-- `os.path.splitext` for a path without separators: split at the last
dot, unless every character before that dot is itself a dot (then there is
no extension).  The sanitized names fed to it contain no `/` or `\`. -/
def splitext (l : List Char) : List Char × List Char :=
  let afterDot := l.reverse.takeWhile (fun c => c ≠ '.')
  if afterDot.length = l.length then (l, [])
  else
    let d := l.length - afterDot.length - 1
    if (l.take d).all (fun c => c = '.') then (l, [])
    else (l.take d, l.drop d)

/-- `sanitize_filename` (youtube.py lines 6-23).  `none` models a `None`
argument; `some ""` an empty string (both are falsy in Python). -/
def sanitize_filename (filename : Option String) : String :=
  match filename with
  | none => "unnamed_file"
  | some f =>
    if f = "" then "unnamed_file"
    else
      let l1 := f.data.filter (fun c => !invalidFileChar c)
      let l2 := l1.filter keepFileChar
      let l3 := collapseRuns false l2
      if l3.length > 100 then
        let p := splitext l3
        ⟨p.1.take 96 ++ ['.', '.', '.'] ++ p.2⟩
      else ⟨l3⟩

/-- The fixed URL head of the accepted YouTube pattern
(`validate_youtube_url`, youtube.py line 31). -/
def ytHead : String := "https://www.youtube.com/watch?v="

/-- Character class `[\w-]` of the video-id group (ASCII core). -/
def ytIdChar (c : Char) : Bool := c.isAlphanum || c = '_' || c = '-'

/-- Matcher for the anchored regex
`^https://www\.youtube\.com/watch\?v=([\w-]{11})$`: the fixed 32-character
head followed by exactly 11 id characters. -/
def ytMatch (s : List Char) : Bool :=
  s.take 32 == ytHead.data && (s.drop 32).length == 11 && (s.drop 32).all ytIdChar

/-- `validate_youtube_url` (youtube.py lines 25-39): `None` for a falsy
argument, otherwise match the stripped URL against the strict pattern and
return the original argument on success, `None` on failure. -/
def validate_youtube_url (url : String) : Option String :=
  if url = "" then none
  else if ytMatch (pyStrip url).data then some url else none

/-- Spec-side characterization of the accepted URLs, written from the
claim's words (refinement target, not from the code): after stripping
surrounding whitespace the string is exactly
`https://www.youtube.com/watch?v=` followed by 11 characters drawn from
letters, digits, underscore and hyphen. -/
def ytSpecFormat (url : String) : Prop :=
  ∃ id : List Char,
    (pyStrip url).data = ytHead.data ++ id ∧ id.length = 11 ∧
    ∀ c ∈ id, c.isAlpha = true ∨ c.isDigit = true ∨ c = '_' ∨ c = '-'

/-- Value type of the `ydl_opts` configuration dictionary passed to
`yt_dlp.YoutubeDL` in `download_youtube_video` (youtube.py lines 72-93). -/
inductive OptVal where
  | b (v : Bool)
  | n (v : Nat)
  | s (v : String)
  | strList (v : List String)
deriving DecidableEq, Repr

/-- The `ydl_opts` dictionary of `download_youtube_video`, entry for
entry, as a function of the computed output template
`os.path.join(download_folder, safe_title + ".%(ext)s")`.  In particular
yt-dlp is configured to retry a failed download up to 3 times and a
failed fragment up to 3 times. -/
def ydl_opts (output_template : String) : List (String × OptVal) :=
  [("format", .s "bestvideo[ext=mp4][height<=720]+bestaudio[ext=m4a]/best[ext=mp4][height<=720]/bestvideo+bestaudio/best"),
   ("outtmpl", .s output_template),
   ("merge_output_format", .s "mp4"),
   ("writeinfojson", .b false),
   ("writesubtitles", .b false),
   ("writeautomaticsub", .b false),
   ("writethumbnail", .b false),
   ("ignoreerrors", .b true),
   ("no_warnings", .b false),
   ("extractflat", .b false),
   ("postprocessors", .strList []),
   ("nocheckcertificate", .b true),
   ("noplaylist", .b true),
   ("continuedl", .b true),
   ("nooverwrites", .b false),
   ("retries", .n 3),
   ("fragment_retries", .n 3),
   ("quiet", .b false),
   ("keep_video", .b true)]

/- ===== app.py: status map and background tasks ===== -/

/-- One stage entry of the `processing_status` dictionary
(app.py lines 73-78): the transcription and summary stages carry a string
result, the translation stage a `Translations` dictionary. -/
structure StageStatus (α : Type) where
  complete : Bool
  result : Option α
  progress : Option String
  error : Bool
deriving DecidableEq, Repr

/-- The `final` entry of `processing_status`. -/
structure FinalStatus where
  success : Bool
  error : Option String
  filename : String
  duration : String
  input_type : String
deriving DecidableEq, Repr

/-- The whole `processing_status` dictionary: one field per key. -/
structure ProcessingStatus where
  transcription : StageStatus String
  summary : StageStatus String
  translation : StageStatus Translations
  final : FinalStatus
deriving DecidableEq, Repr

/-- The initial value every entry is reset to (app.py lines 73-78 and
`reset_status`). -/
def initStatus : ProcessingStatus :=
  ⟨⟨false, none, none, false⟩, ⟨false, none, none, false⟩,
   ⟨false, none, none, false⟩, ⟨false, none, "", "--:--", ""⟩⟩

/-- `reset_status` (app.py lines 80-88): the loop overwrites every
non-final key with the initial stage entry, then overwrites `final`;
since the dictionary has exactly these four keys, every field is set. -/
def reset_status (st : ProcessingStatus) : ProcessingStatus :=
  { st with
    transcription := ⟨false, none, none, false⟩
    summary := ⟨false, none, none, false⟩
    translation := ⟨false, none, none, false⟩
    final := ⟨false, none, "", "--:--", ""⟩ }

/-- The dictionary returned by `process_audio_transcription`
(transcribe.py lines 40-44); the `status` key is never read. -/
structure TranscriptionResult where
  text : String
  duration : String
deriving DecidableEq, Repr

/-- One call to an external service made by a background task: the
speech-to-text transcription, the summarizer, or one chat-completion
translation prompt. -/
inductive Ev where
  | transcribeCall (source : String)
  | summarizeCall (input : String)
  | deepseekCall (prompt : String)
deriving DecidableEq, Repr

/-- The status map written by `process_media_input` when some stage
raised exception message `e` (app.py lines 429-456). -/
def mediaErrorStatus (e media_source input_type : String) : ProcessingStatus :=
  ⟨⟨true, some ("ERROR: " ++ e), none, true⟩,
   ⟨true, none, none, true⟩,
   ⟨true, none, none, true⟩,
   ⟨false, some e, basename media_source, "--:--", input_type⟩⟩

/-- `process_media_input` (app.py lines 358-456): transcribe, then
summarize the transcription text, then translate the summary; any raise
is caught and turned into `mediaErrorStatus`.  The oracles model the three
external services; the second component is the ordered list of external
calls made.  Only the last write to each status key is modelled, since
each success and error path ends by writing all four keys. -/
def process_media_input (transcribe : String → Except String TranscriptionResult)
    (summarize : String → Except String String)
    (d : String → Except String String)
    (media_source input_type : String) : ProcessingStatus × List Ev :=
  match transcribe media_source with
  | .error e => (mediaErrorStatus e media_source input_type, [.transcribeCall media_source])
  | .ok tr =>
    match summarize tr.text with
    | .error e =>
      (mediaErrorStatus e media_source input_type,
       [.transcribeCall media_source, .summarizeCall tr.text])
    | .ok s =>
      let p := create_translations s d
      (⟨⟨true, some tr.text, some "Done", false⟩,
        ⟨true, some s, some "Done", false⟩,
        ⟨true, some p.1, some "Done", false⟩,
        ⟨true, none, basename media_source, tr.duration, "file"⟩⟩,
       [.transcribeCall media_source, .summarizeCall tr.text]
         ++ p.2.map Ev.deepseekCall)

/-- The status map written by `process_text_input` when some stage raised
exception message `e` (app.py lines 319-346). -/
def textErrorStatus (e : String) : ProcessingStatus :=
  ⟨⟨true, some ("ERROR: " ++ e), none, true⟩,
   ⟨true, none, none, true⟩,
   ⟨true, none, none, true⟩,
   ⟨false, some e, "", "--:--", "text"⟩⟩

/-- `process_text_input` (app.py lines 255-346): the input text stands in
for the transcription, then it is summarized and the summary translated;
any raise is caught and turned into `textErrorStatus`.  `time.sleep` has
no observable effect here and is dropped. -/
def process_text_input (summarize : String → Except String String)
    (d : String → Except String String)
    (text_input : String) : ProcessingStatus × List Ev :=
  match summarize text_input with
  | .error e => (textErrorStatus e, [.summarizeCall text_input])
  | .ok s =>
    let p := create_translations s d
    (⟨⟨true, some text_input, none, false⟩,
      ⟨true, some s, some "Done", false⟩,
      ⟨true, some p.1, some "Done", false⟩,
      ⟨true, none, "", "--:--", "text"⟩⟩,
     [.summarizeCall text_input] ++ p.2.map Ev.deepseekCall)

/- ===== app.py: the /process route ===== -/

/-- `SUPPORTED_EXTENSIONS` (app.py lines 17-23). -/
def SUPPORTED_EXTENSIONS : List String :=
  ["mp4", "webm", "mov", "avi", "mkv", "flv", "wmv", "m4v", "3gp", "ogv",
   "asf", "ts", "rm", "rmvb", "mpg",
   "mp3", "wav", "ogg", "aac", "flac", "m4a", "wma", "opus", "mka"]

/-- `filename.rsplit('.', 1)[1].lower()`: the characters after the last
dot, lower-cased. -/
def extAfterLastDot (f : String) : String :=
  pyLower ⟨(f.data.reverse.takeWhile (fun c => c ≠ '.')).reverse⟩

/-- `validate_file_format` (app.py lines 90-110). -/
def validate_file_format (filename : String) : Bool × String :=
  if filename = "" then (false, "No filename provided")
  else if !filename.data.contains '.' then (false, "File has no extension")
  else if !SUPPORTED_EXTENSIONS.contains (extAfterLastDot filename) then
    (false, "Unsupported format: ." ++ extAfterLastDot filename)
  else (true, "Valid format")

/-- The form fields the `/process` route reads.  A `none` field models an
absent key: `request.form.get` then yields `None` (or the given default),
and `request.files.get('file')` yields no upload. -/
structure Form where
  inputType : Option String
  file : Option String
  youtubeUrl : Option String
  textInput : Option String
deriving DecidableEq, Repr

/-- The background job spawned by a successful `/process` request. -/
inductive BgTask where
  | media (media_source : String) (input_type : String)
  | text (text_input : String)
deriving DecidableEq, Repr

/-- `/process` (app.py lines 185-465).  `download` models
`download_youtube_video` (raise = `.error`).  The result is the status
map after the synchronous part of the route (the spawned thread mutates
it later), the HTTP status code with the JSON error or success payload,
and the background task started, if any.  The route resets the status map
before reading any part of the request. -/
def process_route (st : ProcessingStatus) (form : Form)
    (download : String → Except String String) :
    ProcessingStatus × (Nat × String) × Option BgTask :=
  let st1 := reset_status st
  match form.inputType with
  | some "file" =>
    match form.file with
    | none => (st1, (400, "No file provided"), none)
    | some fname =>
      if fname = "" then (st1, (400, "No file provided"), none)
      else
        let v := validate_file_format fname
        if !v.1 then (st1, (400, v.2), none)
        else
          let file_path := "uploads/" ++ sanitize_filename (some fname)
          (st1, (200, "success"), some (.media file_path "file"))
  | some "youtube" =>
    let youtube_url := pyStrip ((form.youtubeUrl).getD "")
    if youtube_url = "" then (st1, (400, "No YouTube URL provided"), none)
    else
      match validate_youtube_url youtube_url with
      | none =>
        (st1,
         (400, "Invalid YouTube URL format. Only https://www.youtube.com/watch?v=VIDEO_ID is supported."),
         none)
      | some _ =>
        match download youtube_url with
        | .error e => (st1, (400, "YouTube download failed: " ++ e), none)
        | .ok path => (st1, (200, "success"), some (.media path "file"))
  | some "text" =>
    let text_input := pyStrip ((form.textInput).getD "")
    if text_input = "" then (st1, (400, "No text provided"), none)
    else if text_input.data.length < 10 then
      (st1, (400, "Text too short. Please provide at least 10 characters."), none)
    else (st1, (200, "success"), some (.text text_input))
  | _ => (st1, (400, "Invalid input type. Must be file, youtube, or text."), none)

/-- `MAX_CONTENT_LENGTH` (app.py line 66): 2 GiB. -/
def max_content_length : Nat := 2 * 1024 * 1024 * 1024

/-- A request hitting the app: Flask rejects a body larger than
`MAX_CONTENT_LENGTH` with 413 before the route runs, and the
`@app.errorhandler(413)` handler `too_large` (app.py lines 582-585)
supplies the JSON error; otherwise the `/process` route handles it. -/
def app_request (content_length : Nat) (st : ProcessingStatus) (form : Form)
    (download : String → Except String String) :
    ProcessingStatus × (Nat × String) × Option BgTask :=
  if content_length > max_content_length then
    (st, (413, "File too large. Maximum size is 2GB."), none)
  else process_route st form download

/- ===== concrete oracles used by the witnesses ===== -/

/-- A transcription service returning a fixed successful transcript. -/
def wTrOk : String → Except String TranscriptionResult :=
  fun _ => .ok ⟨"hi there", "0:42"⟩

/-- A transcription service that always raises. -/
def wTrErr : String → Except String TranscriptionResult := fun _ => .error "boom"

/-- A summarizer returning a fixed summary. -/
def wSumOk : String → Except String String := fun _ => .ok "a short summary"

/-- A summarizer that always raises. -/
def wSumErr : String → Except String String := fun _ => .error "boom"

/-- A chat-completion endpoint answering every prompt with `ok`. -/
def wDk : String → Except String String := fun _ => .ok "ok"

/-- A chat-completion endpoint that always raises. -/
def wDkErr : String → Except String String := fun _ => .error "down"

/-- A YouTube downloader that always raises. -/
def wDl : String → Except String String := fun _ => .error "net"

/-- A concrete `/process` form carrying an invalid YouTube URL. -/
def wForm : Form := ⟨some "youtube", none, some "https://youtu.be/dQw4w9WgXcQ", none⟩

/- ===== helper lemmas ===== -/

theorem kannadaPrompt_head (t : String) :
    (kannadaPrompt t).data.head? = some 'T' := rfl

theorem kanglishPrompt_head (t : String) :
    (kanglishPrompt t).data.head? = some 'C' := rfl

theorem kannadaPrompt_ne_kanglishPrompt (t u : String) :
    kannadaPrompt t ≠ kanglishPrompt u := by
  intro h
  have h2 : (kannadaPrompt t).data.head? = (kanglishPrompt u).data.head? :=
    congrArg (fun s => s.data.head?) h
  rw [kannadaPrompt_head, kanglishPrompt_head] at h2
  exact absurd h2 (by decide)

theorem create_translations_prompts_nodup (text : String)
    (d : String → Except String String) :
    ((create_translations text d).2).Nodup := by
  unfold create_translations
  by_cases h0 : text = "" ∨ pyStrip text = ""
  · simp [h0]
  · rw [if_neg h0]
    cases hk : get_kannada_translation d text with
    | error e => simp
    | ok k =>
      cases hg : get_kanglish_translation d text with
      | error e =>
        simp [List.nodup_cons, kannadaPrompt_ne_kanglishPrompt text text]
      | ok g =>
        simp [List.nodup_cons, kannadaPrompt_ne_kanglishPrompt text text]

theorem deepseekCall_injective : Function.Injective Ev.deepseekCall := by
  intro a b h
  injection h

theorem process_media_input_trace_nodup
    (transcribe : String → Except String TranscriptionResult)
    (summarize : String → Except String String)
    (d : String → Except String String) (src it : String) :
    ((process_media_input transcribe summarize d src it).2).Nodup := by
  cases htr : transcribe src with
  | error e => simp [process_media_input, htr]
  | ok tr =>
    cases hs : summarize tr.text with
    | error e => simp [process_media_input, htr, hs]
    | ok s =>
      simp only [process_media_input, htr, hs, List.cons_append, List.nil_append,
        List.nodup_cons]
      refine ⟨?_, ?_, ?_⟩
      · simp [List.mem_map]
      · simp [List.mem_map]
      · exact (create_translations_prompts_nodup s d).map deepseekCall_injective

theorem process_text_input_trace_nodup
    (summarize : String → Except String String)
    (d : String → Except String String) (text : String) :
    ((process_text_input summarize d text).2).Nodup := by
  cases hs : summarize text with
  | error e => simp [process_text_input, hs]
  | ok s =>
    simp only [process_text_input, hs, List.cons_append, List.nil_append,
      List.nodup_cons]
    refine ⟨?_, ?_⟩
    · simp [List.mem_map]
    · exact (create_translations_prompts_nodup s d).map deepseekCall_injective

theorem ytHead_data_length : ytHead.data.length = 32 := by decide

theorem ytMatch_iff (s : List Char) :
    ytMatch s = true ↔
      ∃ id : List Char, s = ytHead.data ++ id ∧ id.length = 11 ∧
        ∀ c ∈ id, c.isAlpha = true ∨ c.isDigit = true ∨ c = '_' ∨ c = '-' := by
  constructor
  · intro h
    simp only [ytMatch, Bool.and_eq_true, beq_iff_eq, List.all_eq_true] at h
    obtain ⟨⟨h1, h2⟩, h3⟩ := h
    refine ⟨s.drop 32, ?_, by exact_mod_cast h2, ?_⟩
    · conv_lhs => rw [← List.take_append_drop 32 s]
      rw [h1]
    · intro c hc
      have := h3 c hc
      simp only [ytIdChar, Char.isAlphanum, Bool.or_eq_true, decide_eq_true_eq] at this
      tauto
  · rintro ⟨id, rfl, hlen, hc⟩
    simp only [ytMatch, Bool.and_eq_true, beq_iff_eq, List.all_eq_true]
    refine ⟨⟨List.take_left' ytHead_data_length, ?_⟩, ?_⟩
    · rw [List.drop_left' ytHead_data_length, hlen]
    · intro c hcmem
      rw [List.drop_left' ytHead_data_length] at hcmem
      have := hc c hcmem
      simp only [ytIdChar, Char.isAlphanum, Bool.or_eq_true, decide_eq_true_eq]
      tauto

theorem collapseRuns_head_true (l : List Char) (c : Char)
    (h : (collapseRuns true l).head? = some c) : runChar c = false := by
  induction l with
  | nil => simp [collapseRuns] at h
  | cons a as ih =>
    by_cases ha : runChar a = true
    · rw [show collapseRuns true (a :: as) = collapseRuns true as by
        simp [collapseRuns, ha]] at h
      exact ih h
    · rw [show collapseRuns true (a :: as) = a :: collapseRuns false as by
        simp [collapseRuns, ha]] at h
      simp only [List.head?_cons, Option.some.injEq] at h
      rw [← h]
      exact Bool.not_eq_true _ ▸ ha

theorem collapseRuns_chain (b : Bool) (l : List Char) :
    List.Chain' (fun a b => ¬(a = '_' ∧ b = '_')) (collapseRuns b l) := by
  induction l generalizing b with
  | nil => simp [collapseRuns]
  | cons a as ih =>
    by_cases ha : runChar a = true
    · cases b with
      | true =>
        rw [show collapseRuns true (a :: as) = collapseRuns true as by
          simp [collapseRuns, ha]]
        exact ih true
      | false =>
        rw [show collapseRuns false (a :: as) = '_' :: collapseRuns true as by
          simp [collapseRuns, ha]]
        rw [List.chain'_cons']
        refine ⟨?_, ih true⟩
        intro y hy
        rintro ⟨-, rfl⟩
        have := collapseRuns_head_true as '_' hy
        simp [runChar] at this
    · rw [show collapseRuns b (a :: as) = a :: collapseRuns false as by
        simp [collapseRuns, ha]]
      rw [List.chain'_cons']
      refine ⟨?_, ih false⟩
      intro y hy
      rintro ⟨rfl, -⟩
      simp [runChar] at ha

theorem collapseRuns_mem (b : Bool) (l : List Char) (c : Char)
    (h : c ∈ collapseRuns b l) : c = '_' ∨ (c ∈ l ∧ runChar c = false) := by
  induction l generalizing b with
  | nil => simp [collapseRuns] at h
  | cons a as ih =>
    by_cases ha : runChar a = true
    · cases b with
      | true =>
        rw [show collapseRuns true (a :: as) = collapseRuns true as by
          simp [collapseRuns, ha]] at h
        rcases ih true h with h' | ⟨h1, h2⟩
        · exact Or.inl h'
        · exact Or.inr ⟨List.mem_cons_of_mem a h1, h2⟩
      | false =>
        rw [show collapseRuns false (a :: as) = '_' :: collapseRuns true as by
          simp [collapseRuns, ha]] at h
        rcases List.mem_cons.1 h with h' | h'
        · exact Or.inl h'
        · rcases ih true h' with h'' | ⟨h1, h2⟩
          · exact Or.inl h''
          · exact Or.inr ⟨List.mem_cons_of_mem a h1, h2⟩
    · rw [show collapseRuns b (a :: as) = a :: collapseRuns false as by
        simp [collapseRuns, ha]] at h
      rcases List.mem_cons.1 h with h' | h'
      · subst h'
        exact Or.inr ⟨List.mem_cons_self c as, Bool.not_eq_true _ ▸ ha⟩
      · rcases ih false h' with h'' | ⟨h1, h2⟩
        · exact Or.inl h''
        · exact Or.inr ⟨List.mem_cons_of_mem a h1, h2⟩

theorem chain'_take {R : Char → Char → Prop} {l : List Char}
    (h : List.Chain' R l) (n : Nat) : List.Chain' R (l.take n) := by
  rw [← List.take_append_drop n l] at h
  exact h.left_of_append

theorem chain'_drop {R : Char → Char → Prop} {l : List Char}
    (h : List.Chain' R l) (n : Nat) : List.Chain' R (l.drop n) := by
  rw [← List.take_append_drop n l] at h
  exact h.right_of_append

theorem splitext_fst_subset (l : List Char) : (splitext l).1 ⊆ l := by
  simp only [splitext]
  split_ifs <;> simp [List.take_subset]

theorem splitext_snd_subset (l : List Char) : (splitext l).2 ⊆ l := by
  simp only [splitext]
  split_ifs <;> simp [List.drop_subset]

theorem splitext_fst_chain {R : Char → Char → Prop} {l : List Char}
    (h : List.Chain' R l) : List.Chain' R (splitext l).1 := by
  simp only [splitext]
  split_ifs <;> first | exact h | exact chain'_take h _

theorem splitext_snd_chain {R : Char → Char → Prop} {l : List Char}
    (h : List.Chain' R l) : List.Chain' R (splitext l).2 := by
  simp only [splitext]
  split_ifs <;> first | exact List.chain'_nil | exact chain'_drop h _

theorem sanitize_collapse_mem (f : String) (c : Char)
    (h : c ∈ collapseRuns false ((f.data.filter
        (fun c => !invalidFileChar c)).filter keepFileChar)) :
    c = '_' ∨ (runChar c = false ∧ invalidFileChar c = false) := by
  rcases collapseRuns_mem false _ c h with h' | ⟨h1, h2⟩
  · exact Or.inl h'
  · refine Or.inr ⟨h2, ?_⟩
    have h3 := (List.mem_filter.1 h1).1
    have h4 := (List.mem_filter.1 h3).2
    simpa using h4

theorem unnamed_file_chars :
    ∀ x ∈ ("unnamed_file" : String).data,
      x = '_' ∨ x = '.' ∨ (runChar x = false ∧ invalidFileChar x = false) := by
  decide

theorem sanitize_filename_mem (f : Option String) (c : Char)
    (h : c ∈ (sanitize_filename f).data) :
    c = '_' ∨ c = '.' ∨ (runChar c = false ∧ invalidFileChar c = false) := by
  match f with
  | none =>
    have h' : c ∈ ("unnamed_file" : String).data := h
    exact unnamed_file_chars c h'
  | some s =>
    by_cases hs : s = ""
    · subst hs
      have h' : c ∈ ("unnamed_file" : String).data := h
      exact unnamed_file_chars c h'
    · simp only [sanitize_filename] at h
      rw [if_neg hs] at h
      by_cases hlen : (collapseRuns false ((s.data.filter
          (fun c => !invalidFileChar c)).filter keepFileChar)).length > 100
      · rw [if_pos hlen] at h
        simp only [List.append_assoc] at h
        rcases List.mem_append.1 h with h' | h'
        · have hm := List.take_subset 96 _ h'
          have h2 := splitext_fst_subset _ hm
          rcases sanitize_collapse_mem s c h2 with h3 | h3
          · exact Or.inl h3
          · exact Or.inr (Or.inr h3)
        · rcases List.mem_append.1 h' with h'' | h''
          · simp only [List.mem_cons, List.not_mem_nil, or_false] at h''
            rcases h'' with rfl | rfl | rfl
            all_goals exact Or.inr (Or.inl rfl)
          · have h2 := splitext_snd_subset _ h''
            rcases sanitize_collapse_mem s c h2 with h3 | h3
            · exact Or.inl h3
            · exact Or.inr (Or.inr h3)
      · rw [if_neg hlen] at h
        rcases sanitize_collapse_mem s c h with h3 | h3
        · exact Or.inl h3
        · exact Or.inr (Or.inr h3)

theorem sanitize_filename_chain (f : Option String) :
    List.Chain' (fun a b => ¬(a = '_' ∧ b = '_')) (sanitize_filename f).data := by
  match f with
  | none =>
    show List.Chain' _ ("unnamed_file" : String).data
    rw [show ("unnamed_file" : String).data
      = ['u', 'n', 'n', 'a', 'm', 'e', 'd', '_', 'f', 'i', 'l', 'e'] from rfl]
    simp [List.chain'_cons]
  | some s =>
    by_cases hs : s = ""
    · subst hs
      show List.Chain' _ ("unnamed_file" : String).data
      rw [show ("unnamed_file" : String).data
        = ['u', 'n', 'n', 'a', 'm', 'e', 'd', '_', 'f', 'i', 'l', 'e'] from rfl]
      simp [List.chain'_cons]
    · simp only [sanitize_filename]
      rw [if_neg hs]
      by_cases hlen : (collapseRuns false ((s.data.filter
          (fun c => !invalidFileChar c)).filter keepFileChar)).length > 100
      · rw [if_pos hlen]
        have h3 := collapseRuns_chain false ((s.data.filter
          (fun c => !invalidFileChar c)).filter keepFileChar)
        have h1 := splitext_fst_chain h3
        have h2 := splitext_snd_chain h3
        show List.Chain' _ (_ ++ _ ++ _)
        rw [List.append_assoc, List.chain'_append]
        refine ⟨chain'_take h1 96, ?_, ?_⟩
        · rw [List.chain'_append]
          refine ⟨by simp [List.chain'_cons], h2, ?_⟩
          intro x hx y hy
          simp only [List.getLast?_cons, List.getLast?_singleton] at hx
          rintro ⟨rfl, -⟩
          simp at hx
        · intro x hx y hy
          simp only [List.cons_append, List.head?_cons, Option.mem_def,
            Option.some.injEq] at hy
          rintro ⟨-, h'⟩
          rw [← hy] at h'
          exact absurd h' (by decide)
      · rw [if_neg hlen]
        exact collapseRuns_chain false _

theorem reset_status_eq (st : ProcessingStatus) : reset_status st = initStatus := by
  cases st
  rfl

/- ===== claims ===== -/

/-- C1: for every accepted media-file request, the background task runs
the stages in the fixed order transcribe, summarize the transcription
text, translate that summary (visible in the call trace), and on success
the transcription, summary and translation entries each end with
`complete = true` and their stage result, while the final entry is
`success = true` with the media filename (the basename of the saved
path) and the transcript's duration. -/
theorem C1_media_pipeline
    (transcribe : String → Except String TranscriptionResult)
    (summarize : String → Except String String)
    (d : String → Except String String)
    (media_source input_type : String)
    (tr : TranscriptionResult) (s : String)
    (h1 : transcribe media_source = .ok tr)
    (h2 : summarize tr.text = .ok s) :
    process_media_input transcribe summarize d media_source input_type =
      (⟨⟨true, some tr.text, some "Done", false⟩,
        ⟨true, some s, some "Done", false⟩,
        ⟨true, some (create_translations s d).1, some "Done", false⟩,
        ⟨true, none, basename media_source, tr.duration, "file"⟩⟩,
       [.transcribeCall media_source, .summarizeCall tr.text]
         ++ ((create_translations s d).2).map Ev.deepseekCall) := by
  simp [process_media_input, h1, h2]

theorem C1_media_pipeline_witness :
    process_media_input wTrOk wSumOk wDk "uploads/a.mp4" "file" =
      (⟨⟨true, some "hi there", some "Done", false⟩,
        ⟨true, some "a short summary", some "Done", false⟩,
        ⟨true, some (create_translations "a short summary" wDk).1, some "Done", false⟩,
        ⟨true, none, "a.mp4", "0:42", "file"⟩⟩,
       [.transcribeCall "uploads/a.mp4", .summarizeCall "hi there"]
         ++ ((create_translations "a short summary" wDk).2).map Ev.deepseekCall) :=
  C1_media_pipeline wTrOk wSumOk wDk "uploads/a.mp4" "file"
    ⟨"hi there", "0:42"⟩ "a short summary" rfl rfl

/-- C2: when a stage of a background task raises, the task catches the
exception (the embedded task functions are total), sets all three stage
entries to `complete = true`, `error = true` with the transcription
result `"ERROR: "` followed by the message, and sets the final entry to
`success = false` carrying the message.  The three conjuncts cover the
stages that can raise: the transcription and the summary of the media
task, and the summary of the text task (`create_translations` is total,
so the translation stage cannot raise). -/
theorem C2_error_propagation :
    (∀ (transcribe : String → Except String TranscriptionResult)
       (summarize d : String → Except String String) (src it e : String),
       transcribe src = .error e →
       (process_media_input transcribe summarize d src it).1 =
         ⟨⟨true, some ("ERROR: " ++ e), none, true⟩,
          ⟨true, none, none, true⟩,
          ⟨true, none, none, true⟩,
          ⟨false, some e, basename src, "--:--", it⟩⟩)
  ∧ (∀ (transcribe : String → Except String TranscriptionResult)
       (summarize d : String → Except String String) (src it : String)
       (tr : TranscriptionResult) (e : String),
       transcribe src = .ok tr → summarize tr.text = .error e →
       (process_media_input transcribe summarize d src it).1 =
         ⟨⟨true, some ("ERROR: " ++ e), none, true⟩,
          ⟨true, none, none, true⟩,
          ⟨true, none, none, true⟩,
          ⟨false, some e, basename src, "--:--", it⟩⟩)
  ∧ (∀ (summarize d : String → Except String String) (text e : String),
       summarize text = .error e →
       (process_text_input summarize d text).1 =
         ⟨⟨true, some ("ERROR: " ++ e), none, true⟩,
          ⟨true, none, none, true⟩,
          ⟨true, none, none, true⟩,
          ⟨false, some e, "", "--:--", "text"⟩⟩) := by
  refine ⟨?_, ?_, ?_⟩
  · intro transcribe summarize d src it e h
    simp [process_media_input, h, mediaErrorStatus]
  · intro transcribe summarize d src it tr e h1 h2
    simp [process_media_input, h1, h2, mediaErrorStatus]
  · intro summarize d text e h
    simp [process_text_input, h, textErrorStatus]

theorem C2_error_propagation_witness :
    (process_media_input wTrErr wSumOk wDk "uploads/a.mp4" "file").1 =
      ⟨⟨true, some "ERROR: boom", none, true⟩,
       ⟨true, none, none, true⟩,
       ⟨true, none, none, true⟩,
       ⟨false, some "boom", "a.mp4", "--:--", "file"⟩⟩ :=
  C2_error_propagation.1 wTrErr wSumOk wDk "uploads/a.mp4" "file" "boom" rfl

/-- C3: if either prompted translation call raises, `create_translations`
does not raise (it is a total function) and returns the textual fallback
pair, so the caller always receives a translations dictionary. -/
theorem C3_translation_fallback (text : String)
    (d : String → Except String String)
    (h0 : pyStrip text ≠ "")
    (h : (∃ e, d (kannadaPrompt text) = .error e)
       ∨ (∃ e, d (kanglishPrompt text) = .error e)) :
    (create_translations text d).1 = get_fallback_translations text := by
  have htxt : ¬(text = "" ∨ pyStrip text = "") := by
    rintro (rfl | h')
    · exact h0 rfl
    · exact h0 h'
  unfold create_translations
  rw [if_neg htxt]
  rcases h with ⟨e, he⟩ | ⟨e, he⟩
  · have hk : get_kannada_translation d text = .error e := by
      simp [get_kannada_translation, he]
    rw [hk]
  · cases hk : get_kannada_translation d text with
    | error e2 => simp
    | ok k =>
      have hg : get_kanglish_translation d text = .error e := by
        simp [get_kanglish_translation, he]
      rw [hg]

theorem C3_translation_fallback_witness :
    (create_translations "hello" wDkErr).1 = get_fallback_translations "hello" :=
  C3_translation_fallback "hello" wDkErr (by decide) (Or.inl ⟨"down", rfl⟩)

/-- C4 counterexample: the claim says the fallback pair is independent of
the input, but `get_fallback_translations` interpolates `text[:100]`, so
the inputs `"a"` and `"b"` already receive different fallback pairs. -/
theorem C4_counterexample :
    get_fallback_translations "a" ≠ get_fallback_translations "b" := by decide

/-- C4 (amended): the fallback pair is a fixed template that depends on
the input text only through its first 100 characters; any two failing
inputs that agree on their first 100 characters receive the same Kannada
string and the same Kanglish string. -/
theorem C4_fallback_template (t u : String)
    (h : pyTake 100 t = pyTake 100 u) :
    get_fallback_translations t = get_fallback_translations u := by
  unfold get_fallback_translations
  rw [h]

theorem C4_fallback_template_witness :
    get_fallback_translations ⟨List.replicate 100 'a' ++ ['b']⟩
      = get_fallback_translations ⟨List.replicate 100 'a' ++ ['c']⟩ :=
  C4_fallback_template ⟨List.replicate 100 'a' ++ ['b']⟩
    ⟨List.replicate 100 'a' ++ ['c']⟩
    (by
      show (⟨(List.replicate 100 'a' ++ ['b']).take 100⟩ : String)
        = ⟨(List.replicate 100 'a' ++ ['c']).take 100⟩
      rw [List.take_left' (List.length_replicate 100 'a'),
        List.take_left' (List.length_replicate 100 'a')])

/-- C5: `validate_youtube_url` returns the URL exactly when the input,
after stripping surrounding whitespace, is
`https://www.youtube.com/watch?v=` followed by exactly 11 characters
drawn from letters, digits, underscore and hyphen (`ytSpecFormat`, the
claim's wording), and returns `None` for every other string; and the
`/process` route answers HTTP 400 to a YouTube request whose URL fails
this validation. -/
theorem C5_youtube_url_validation :
    (∀ url : String,
       (validate_youtube_url url = some url ↔ ytSpecFormat url) ∧
       (validate_youtube_url url = none ↔ ¬ ytSpecFormat url))
  ∧ (∀ (st : ProcessingStatus) (form : Form)
       (download : String → Except String String),
       form.inputType = some "youtube" →
       validate_youtube_url (pyStrip ((form.youtubeUrl).getD "")) = none →
       ((process_route st form download).2.1).1 = 400) := by
  constructor
  · intro url
    by_cases hurl : url = ""
    · subst hurl
      have hnospec : ¬ ytSpecFormat "" := by
        rintro ⟨id, hd, hlen, -⟩
        rw [show (pyStrip "").data = [] from rfl] at hd
        have := congrArg List.length hd
        rw [List.length_append, ytHead_data_length, hlen] at this
        simp at this
      constructor
      · exact ⟨fun h => absurd h (by simp [validate_youtube_url]),
               fun h => absurd h hnospec⟩
      · exact ⟨fun _ => hnospec, fun _ => by simp [validate_youtube_url]⟩
    · unfold validate_youtube_url
      rw [if_neg hurl]
      by_cases hm : ytMatch (pyStrip url).data = true
      · rw [if_pos hm]
        have hspec : ytSpecFormat url := (ytMatch_iff _).1 hm
        constructor
        · exact ⟨fun _ => hspec, fun _ => rfl⟩
        · exact ⟨fun h => absurd h (by simp), fun h => absurd hspec h⟩
      · rw [if_neg hm]
        have hnospec : ¬ ytSpecFormat url := fun h => hm ((ytMatch_iff _).2 h)
        constructor
        · exact ⟨fun h => absurd h (by simp), fun h => absurd h hnospec⟩
        · exact ⟨fun _ => hnospec, fun _ => rfl⟩
  · intro st form download hin hval
    simp only [process_route, hin]
    by_cases hz : pyStrip ((form.youtubeUrl).getD "") = ""
    · simp [hz]
    · simp [hz, hval]

theorem C5_youtube_url_validation_witness :
    ((process_route initStatus wForm wDl).2.1).1 = 400 :=
  C5_youtube_url_validation.2 initStatus wForm wDl rfl (by decide)

/-- C6 counterexample: the claim says no failed download step is ever
re-attempted, but `download_youtube_video` configures yt-dlp with
`retries = 3` and `fragment_retries = 3`, i.e. a failed video download
(or fragment) is re-attempted up to 3 times by the download library. -/
theorem C6_counterexample :
    List.lookup "retries" (ydl_opts "uploads/YouTube_Video.%(ext)s")
        = some (OptVal.n 3)
      ∧ List.lookup "fragment_retries" (ydl_opts "uploads/YouTube_Video.%(ext)s")
        = some (OptVal.n 3)
      ∧ OptVal.n 3 ≠ OptVal.n 0 := by decide

/-- C6 (amended): the application code itself never re-attempts a failed
external call — in any run of a background task each transcription,
summarization or translation prompt is sent at most once (the call trace
has no duplicate entry) — but the YouTube download step delegates retries
to yt-dlp, configured with `retries = 3` and `fragment_retries = 3`. -/
theorem C6_no_retry_in_app_code :
    (∀ (transcribe : String → Except String TranscriptionResult)
       (summarize d : String → Except String String) (src it : String),
       ((process_media_input transcribe summarize d src it).2).Nodup)
  ∧ (∀ (summarize d : String → Except String String) (text : String),
       ((process_text_input summarize d text).2).Nodup)
  ∧ (∀ tmpl : String,
       List.lookup "retries" (ydl_opts tmpl) = some (OptVal.n 3)
       ∧ List.lookup "fragment_retries" (ydl_opts tmpl) = some (OptVal.n 3)) :=
  ⟨process_media_input_trace_nodup, process_text_input_trace_nodup,
   fun _ => ⟨rfl, rfl⟩⟩

/-- C7 counterexample: the claim says no processing stage imposes any
limit on its input besides the upload size cap, but the translation stage
truncates its input to the first 1000 characters when building prompts:
two 1001-character texts differing only in their last character are sent
as the very same prompt. -/
theorem C7_counterexample :
    (String.mk (List.replicate 1000 'a' ++ ['b'])
        ≠ String.mk (List.replicate 1000 'a' ++ ['c']))
  ∧ kannadaPrompt (String.mk (List.replicate 1000 'a' ++ ['b']))
      = kannadaPrompt (String.mk (List.replicate 1000 'a' ++ ['c'])) := by
  constructor
  · intro h
    have h2 : List.replicate 1000 'a' ++ ['b']
        = List.replicate 1000 'a' ++ ['c'] := congrArg String.data h
    have h3 := List.append_cancel_left h2
    simp at h3
  · unfold kannadaPrompt
    have ht : pyTake 1000 (String.mk (List.replicate 1000 'a' ++ ['b']))
        = pyTake 1000 (String.mk (List.replicate 1000 'a' ++ ['c'])) := by
      show (⟨(List.replicate 1000 'a' ++ ['b']).take 1000⟩ : String)
        = ⟨(List.replicate 1000 'a' ++ ['c']).take 1000⟩
      rw [List.take_left' (List.length_replicate 1000 'a'),
        List.take_left' (List.length_replicate 1000 'a')]
    rw [ht]

/-- C7 (amended): a request whose body exceeds 2 GiB is rejected with
HTTP 413 and the `File too large` message before the route runs; but the
upload cap is not the only input limit: both translation prompts depend
on their input only through its first 1000 characters, and the fallback
only through its first 100. -/
theorem C7_upload_limit_and_truncation :
    (∀ (n : Nat) (st : ProcessingStatus) (form : Form)
       (download : String → Except String String),
       n > max_content_length →
       app_request n st form download
         = (st, (413, "File too large. Maximum size is 2GB."), none))
  ∧ (∀ t : String,
       kannadaPrompt t = kannadaPrompt (pyTake 1000 t)
       ∧ kanglishPrompt t = kanglishPrompt (pyTake 1000 t)
       ∧ get_fallback_translations t = get_fallback_translations (pyTake 100 t)) := by
  constructor
  · intro n st form download h
    unfold app_request
    rw [if_pos h]
  · intro t
    have htake : ∀ m : Nat, pyTake m (pyTake m t) = pyTake m t := by
      intro m
      show (⟨(t.data.take m).take m⟩ : String) = ⟨t.data.take m⟩
      rw [List.take_of_length_le (by rw [List.length_take]; exact Nat.min_le_left _ _)]
    refine ⟨?_, ?_, ?_⟩
    · unfold kannadaPrompt
      rw [htake 1000]
    · unfold kanglishPrompt
      rw [htake 1000]
    · unfold get_fallback_translations
      rw [htake 100]

theorem C7_upload_limit_witness :
    app_request (2 * 1024 * 1024 * 1024 + 1) initStatus wForm wDl
      = (initStatus, (413, "File too large. Maximum size is 2GB."), none) :=
  C7_upload_limit_and_truncation.1 (2 * 1024 * 1024 * 1024 + 1)
    initStatus wForm wDl (by decide)

/-- C8: every invocation of `/process` first resets every entry of the
shared status map to its initial values before examining the request:
`reset_status` maps any prior state to the initial map, and the route's
behaviour is therefore independent of the status map it starts from. -/
theorem C8_reset_before_request :
    (∀ st : ProcessingStatus, reset_status st = initStatus)
  ∧ (∀ (st st' : ProcessingStatus) (form : Form)
       (download : String → Except String String),
       process_route st form download = process_route st' form download) := by
  refine ⟨reset_status_eq, ?_⟩
  intro st st' form download
  unfold process_route
  rw [reset_status_eq, reset_status_eq]

/-- C9: for every input, `sanitize_filename` returns a string with no
path separator, none of the characters `< > : " | ? *`, and no
whitespace; runs of whitespace/underscores are collapsed, so the result
never contains two adjacent underscores; and an empty or `None` input
yields `unnamed_file`. -/
theorem C9_sanitize_filename_safe :
    (∀ (f : Option String), ∀ c ∈ (sanitize_filename f).data,
       c ≠ '/' ∧ c ≠ '\\' ∧ c ≠ '<' ∧ c ≠ '>' ∧ c ≠ ':' ∧ c ≠ '"' ∧
       c ≠ '|' ∧ c ≠ '?' ∧ c ≠ '*' ∧ pyWS c = false)
  ∧ (∀ f : Option String,
       List.Chain' (fun a b => ¬(a = '_' ∧ b = '_')) (sanitize_filename f).data)
  ∧ sanitize_filename none = "unnamed_file"
  ∧ sanitize_filename (some "") = "unnamed_file" := by
  refine ⟨?_, sanitize_filename_chain, rfl, rfl⟩
  intro f c h
  rcases sanitize_filename_mem f c h with rfl | rfl | ⟨h1, h2⟩
  · decide
  · decide
  · have hws : pyWS c = false := by
      simp only [runChar, Bool.or_eq_false_iff] at h1
      exact h1.1
    refine ⟨?_, ?_, ?_, ?_, ?_, ?_, ?_, ?_, ?_, hws⟩
    all_goals rintro rfl
    all_goals exact absurd h2 (by decide)

theorem C9_sanitize_filename_safe_witness :
    ('b' ∈ (sanitize_filename (some "a b:c.mp4")).data)
  ∧ ('b' ≠ '/' ∧ 'b' ≠ '\\' ∧ 'b' ≠ '<' ∧ 'b' ≠ '>' ∧ 'b' ≠ ':' ∧ 'b' ≠ '"' ∧
     'b' ≠ '|' ∧ 'b' ≠ '?' ∧ 'b' ≠ '*' ∧ pyWS 'b' = false) :=
  ⟨by decide, C9_sanitize_filename_safe.1 (some "a b:c.mp4") 'b' (by decide)⟩

/-- C10 counterexample: the claim says both returned strings are always
non-empty, but when the translation service answers a prompt with the
empty string the cleaned-up AI translation is empty, so for the input
`"hello world"` and an endpoint returning `""` the `kannada` value is
the empty string. -/
theorem C10_counterexample :
    ((create_translations "hello world" (fun _ => Except.ok "")).1).kannada
      = "" ∧ pyStrip "hello world" ≠ "" := by decide

/-- C10 (amended): `create_translations` is total and always returns a
dictionary with exactly the keys `kannada` and `kanglish` (the
`Translations` record); for empty or whitespace-only text it returns the
fixed no-content pair without calling the translation service (the call
trace is empty); the no-content and fallback strings are always
non-empty; on the AI-success path each value is exactly the cleaned
service response, which is empty only when the response cleans to the
empty string. -/
theorem C10_translations_shape :
    (∀ (text : String) (d : String → Except String String),
       text = "" ∨ pyStrip text = "" →
       create_translations text d = (noContentPair, []))
  ∧ (noContentPair.kannada ≠ "" ∧ noContentPair.kanglish ≠ "")
  ∧ (∀ t : String, (get_fallback_translations t).kannada ≠ ""
       ∧ (get_fallback_translations t).kanglish ≠ "")
  ∧ (∀ (text : String) (d : String → Except String String) (k g : String),
       d (kannadaPrompt text) = .ok k → d (kanglishPrompt text) = .ok g →
       ¬(text = "" ∨ pyStrip text = "") →
       (create_translations text d).1
         = ⟨cleanAiTranslation "kannada:" 8 k, cleanAiTranslation "kanglish:" 9 g⟩) := by
  refine ⟨?_, by decide, ?_, ?_⟩
  · intro text d h
    unfold create_translations
    rw [if_pos h]
  · intro t
    constructor
    · intro h
      have hh : ((get_fallback_translations t).kannada).data.head? = some 'ಸ' := rfl
      rw [h] at hh
      exact absurd hh (by decide)
    · intro h
      have hh : ((get_fallback_translations t).kanglish).data.head? = some 'S' := rfl
      rw [h] at hh
      exact absurd hh (by decide)
  · intro text d k g hk hg hne
    unfold create_translations
    rw [if_neg hne]
    have h1 : get_kannada_translation d text
        = .ok (cleanAiTranslation "kannada:" 8 k) := by
      simp [get_kannada_translation, hk]
    have h2 : get_kanglish_translation d text
        = .ok (cleanAiTranslation "kanglish:" 9 g) := by
      simp [get_kanglish_translation, hg]
    rw [h1, h2]

theorem C10_translations_shape_witness :
    create_translations "" wDk = (noContentPair, []) :=
  C10_translations_shape.1 "" wDk (Or.inl rfl)
